import Mathlib

/-!
# Verification of the Productivity Timer browser-extension blocking engine

Shallow embedding of the background script of the browser extension
(`src/unnamed/part_000`, with the reduced variant in
`src/browser_extension/background.js` sharing the same matcher and
session-block logic).  JavaScript strings are modelled as Lean `String`
(character lists); the inputs of interest are ASCII, where JS
`toLowerCase`, `startsWith`, `includes` and `endsWith` coincide with the
character-wise operations below.
-/

namespace Productivity

/-! ## JS string primitives -/

/-- `hasPref p s`: `p` is a prefix of `s` (character-wise). -/
def hasPref : List Char → List Char → Bool
  | [], _ => true
  | _ :: _, [] => false
  | a :: as, b :: bs => a == b && hasPref as bs

/-- `hasSub p s`: `p` occurs as a contiguous substring of `s`
(JS `String.prototype.includes`). -/
def hasSub (p : List Char) : List Char → Bool
  | [] => hasPref p []
  | s@(_ :: rest) => hasPref p s || hasSub p rest

/-- JS `s.startsWith(p)`. -/
def jsStartsWith (s p : String) : Bool := hasPref p.data s.data

/-- JS `s.includes(p)`. -/
def jsIncludes (s p : String) : Bool := hasSub p.data s.data

/-- JS `s.endsWith(p)`. -/
def jsEndsWith (s p : String) : Bool := hasPref p.data.reverse s.data.reverse

/-- JS `s.toLowerCase()` (ASCII case folding, matching the extension's
ASCII domain/URL inputs). -/
def jsToLower (s : String) : String := ⟨s.data.map Char.toLower⟩

/-- Drop the first `n` characters of `s`. -/
def jsDropChars (s : String) (n : Nat) : String := ⟨s.data.drop n⟩

/-- JS `s.replace(/^p/, '')` for a literal prefix `p`: drop `p` from the
front of `s` when present. -/
def dropPref (s p : String) : String :=
  if jsStartsWith s p then jsDropChars s p.data.length else s

/-- JS `url.replace(/^https?:\/\//, '')`: drop a leading `http://` or
`https://`. -/
def stripScheme (s : String) : String :=
  if jsStartsWith s "http://" then jsDropChars s 7
  else if jsStartsWith s "https://" then jsDropChars s 8
  else s

/-- JS `site.replace(/^(https?:\/\/)?(www\.)?/, '')` used by
`buildPatternForSites`: drop an optional scheme, then an optional
`www.` (both case-sensitively, as in the source regex). -/
def stripSchemeWww (s : String) : String := dropPref (stripScheme s) "www."

/-! ## Pattern matcher (`buildPatternForSites` and `RegExp.test`)

`buildPatternForSites(sites)` compiles
`new RegExp('^https?://(www\\.)?(' ++ escaped.join('|') ++ ')', 'i')`
where each alternative is the site with optional scheme/`www.` removed
and every regex metacharacter escaped, i.e. a *literal* string.  Such a
regex matches a URL exactly when, case-insensitively, the URL starts
with `http://` or `https://`, followed by an optional `www.`, followed
by one of the literal alternatives (the regex has no trailing anchor,
so anything may follow).  `patternTest` is that characterisation; the
four prefix tests per alternative enumerate the scheme choice and the
optional `www.` group (including the backtracking case where the URL
itself begins with `www.` matched by the alternative). -/

/-- Semantics of `pattern.test(url)` for the compiled block regex,
over the list of (stripped) alternatives. -/
def patternTest (alts : List String) (url : String) : Bool :=
  let u := jsToLower url
  alts.any fun d =>
    let dl := jsToLower d
    jsStartsWith u ("http://" ++ dl) || jsStartsWith u ("https://" ++ dl) ||
    jsStartsWith u ("http://www." ++ dl) || jsStartsWith u ("https://www." ++ dl)

/-- `buildPatternForSites(sites)`: `null` for a missing/empty list,
otherwise the compiled pattern, represented by its list of stripped
literal alternatives. -/
def buildPatternForSites (sites : List String) : Option (List String) :=
  if sites.isEmpty then none
  else some (sites.map stripSchemeWww)

/-- `pattern && pattern.test(url)`: a `null` pattern matches nothing. -/
def matcherTest (m : Option (List String)) (url : String) : Bool :=
  match m with
  | none => false
  | some alts => patternTest alts url

/-! ## Extension state

One record mirroring the top-level mutable variables of the background
script.  `sessionRuleArmed` / `punishmentRuleArmed` record whether the
corresponding `webRequest` listener is currently installed
(`startBlocking` / `stopBlocking`, `startPunishmentBlocking` /
`stopPunishmentBlocking`).  Sets (`aiCheckedDomains`,
`aiCheckInProgress`) are modelled as duplicate-free lists. -/

/-- Cached `/punishment-status` record (`punishmentState` in storage). -/
structure PunishmentRecord where
  is_locked : Bool
  lock_time_remaining : Int
deriving Repr, DecidableEq

/-- A queued `{domain, seconds}` usage report. -/
structure UsageReport where
  domain : String
  seconds : Int
deriving Repr, DecidableEq

structure ExtState where
  isBlocking : Bool
  blockedSites : List String
  alwaysBlockedSites : List String
  whitelistedUrls : List String
  blockCount : Nat
  appConnected : Bool
  isPunishmentLocked : Bool
  sessionRuleArmed : Bool
  punishmentRuleArmed : Bool
  aiCheckedDomains : List String
  aiCheckInProgress : List String
  usageReportQueue : List UsageReport
  storedPunishment : Option PunishmentRecord
deriving Repr, DecidableEq

/-- JS `Set.add`: insert if absent (keeping insertion order). -/
def setAdd (l : List String) (x : String) : List String :=
  if l.contains x then l else l ++ [x]

/-- Outcome of a request-interception filter: the empty object `{}`
(allow) or a `redirectUrl` to `blocked.html` carrying the original URL
and the query markers `&adult=1`, `&punishment=1`, `&ai=1`. -/
inductive RequestDecision where
  | allow
  | redirectToBlocked (origUrl : String) (adult punishment ai : Bool)
deriving Repr, DecidableEq

/-! ## Whitelist (`isWhitelisted`) -/

/-- One iteration of the `for` loop in `isWhitelisted`: the checks
performed against a single whitelist entry (both sides already
lowercased by the caller’s normalisation). -/
def whitelistEntryMatches (url entry : String) : Bool :=
  let nu := jsToLower url
  let nw := jsToLower entry
  nu == nw || jsStartsWith nu nw ||
  (let up := stripScheme nu
   let wp := stripScheme nw
   up == wp || jsStartsWith up wp ||
   (let unw := dropPref up "www."
    let wnw := dropPref wp "www."
    unw == wnw || jsStartsWith unw wnw))

/-- `isWhitelisted(url)`: true when some entry of the whitelist matches
(the explicit empty-list guard in the source is the `List.any` base
case). -/
def isWhitelisted (whitelist : List String) (url : String) : Bool :=
  whitelist.any (whitelistEntryMatches url)

/-! ## The three interception filters -/

/-- `blockRequest(details)` (session blocking): whitelist first, then
the compiled session pattern; on match, increment `blockCount` and
redirect.  Returns the decision together with the new `blockCount`. -/
def blockRequest (st : ExtState) (url : String) : RequestDecision × Nat :=
  if isWhitelisted st.whitelistedUrls url then
    (.allow, st.blockCount)
  else
    match buildPatternForSites st.blockedSites with
    | some alts =>
        if patternTest alts url then
          (.redirectToBlocked url false false false, st.blockCount + 1)
        else (.allow, st.blockCount)
    | none => (.allow, st.blockCount)

/-- `alwaysBlockRequest(details)` (adult content, always armed): no
whitelist consultation; on match, increment `blockCount`, fire
`reportAdultStrike()` and redirect with the `&adult=1` marker.  Returns
(decision, new `blockCount`, whether a strike report was fired). -/
def alwaysBlockRequest (st : ExtState) (url : String) :
    RequestDecision × Nat × Bool :=
  match buildPatternForSites st.alwaysBlockedSites with
  | some alts =>
      if patternTest alts url then
        (.redirectToBlocked url true false false, st.blockCount + 1, true)
      else (.allow, st.blockCount, false)
  | none => (.allow, st.blockCount, false)

/-- `punishmentBlockRequest(details)`: allow the extension's own pages
(`url.startsWith(browser.runtime.getURL(''))`, with the extension base
URL passed as `extensionBase`) and any URL *containing* the substring
`127.0.0.1` or `localhost`; redirect everything else with the
`&adult=1&punishment=1` markers. -/
def punishmentBlockRequest (extensionBase url : String) : RequestDecision :=
  if jsStartsWith url extensionBase then .allow
  else if jsIncludes url "127.0.0.1" || jsIncludes url "localhost" then .allow
  else .redirectToBlocked url true true false

/-! ## Startup defaults (`initialize`) -/

/-- `DEFAULT_BLOCKED_SITES`: fallback when no blocked-sites list was
ever persisted. -/
def DEFAULT_BLOCKED_SITES : List String :=
  ["facebook.com", "twitter.com", "x.com", "instagram.com", "tiktok.com",
   "reddit.com", "youtube.com", "twitch.tv", "netflix.com", "discord.com"]

/-- `initialize`: `blockedSites = data.blockedSites || DEFAULT_BLOCKED_SITES`.
`none` models an absent (never persisted) key; a persisted array — even
an empty one, which is truthy in JS — is kept as is. -/
def initBlockedSites (stored : Option (List String)) : List String :=
  stored.getD DEFAULT_BLOCKED_SITES

/-- `manualToggle` message handler: only acts when the desktop app is
not connected; flips `isBlocking` and arms/disarms the session rule to
match.  Returns the new state and the response (`some b` on success,
`none` for the `'Controlled by desktop app'` error). -/
def manualToggle (st : ExtState) : ExtState × Option Bool :=
  if !st.appConnected then
    let b := !st.isBlocking
    ({ st with isBlocking := b, sessionRuleArmed := b }, some b)
  else (st, none)

/-! ## PolicySyncEngine (`syncWithApp` and its sub-steps)

Each network call is parametrised by its outcome.  A fetch that throws
(server unreachable) and an OK response whose JSON body fails to parse
both land in the surrounding `catch`, so both are the `exn`
constructor; a non-OK HTTP response (`!response.ok`) is `httpError`. -/

/-- Outcome of the `GET /status` poll. -/
inductive StatusPoll where
  | ok (isBlocking : Bool)
  | httpError
  | exn
deriving Repr, DecidableEq

/-- Outcome of the `GET /punishment-status` poll. -/
inductive PunishmentPoll where
  | ok (rec : PunishmentRecord)
  | httpError
  | exn
deriving Repr, DecidableEq

/-- Outcome of the `GET /nsfw-cache` poll: `some checked` for an OK
response carrying a `checked_domains` array, `none` for any failure
(or a body without the array), which leaves the local cache untouched. -/
def CachePoll := Option (List String)

/-- Body of an OK `GET /sites` response.  `sites`/`alwaysBlocked` model
a missing or empty array as `[]` (both are skipped by the
`data.x && data.x.length > 0` guard); `whitelist` is replaced whenever
the field is present (`if (data.whitelist)`), even by an empty array. -/
structure SitesPayload where
  sites : List String
  alwaysBlocked : List String
  whitelist : Option (List String)
deriving Repr, DecidableEq

/-- `if (data.sites && data.sites.length > 0) blockedSites = data.sites`. -/
def updateSites (st : ExtState) (sites : List String) : ExtState :=
  if sites.isEmpty then st else { st with blockedSites := sites }

/-- `if (data.alwaysBlocked && data.alwaysBlocked.length > 0)
alwaysBlockedSites = data.alwaysBlocked` — a wholesale replacement. -/
def updateAlwaysBlocked (st : ExtState) (ab : List String) : ExtState :=
  if ab.isEmpty then st else { st with alwaysBlockedSites := ab }

/-- `if (data.whitelist) whitelistedUrls = data.whitelist` (present even
as an empty array — truthy in JS — replaces). -/
def updateWhitelist (st : ExtState) (w : Option (List String)) : ExtState :=
  match w with
  | none => st
  | some wl => { st with whitelistedUrls := wl }

/-- `fetchBlockedSites()`: `none` models a thrown fetch or a non-OK
response (both leave all three lists untouched). -/
def fetchBlockedSitesStep (st : ExtState) (fetch : Option SitesPayload) : ExtState :=
  match fetch with
  | none => st
  | some d =>
      updateWhitelist (updateAlwaysBlocked (updateSites st d.sites) d.alwaysBlocked) d.whitelist

/-- `checkCachedPunishmentStatus()`: consult the persisted
`punishmentState`; lock iff `is_locked && lock_time_remaining > 0`,
arming/disarming the punishment rule only on a transition. -/
def checkCachedPunishmentStatus (st : ExtState) : ExtState :=
  match st.storedPunishment with
  | none => st
  | some r =>
      let wasLocked := st.isPunishmentLocked
      if r.is_locked && r.lock_time_remaining > 0 then
        { st with isPunishmentLocked := true,
                  punishmentRuleArmed :=
                    if wasLocked then st.punishmentRuleArmed else true }
      else
        { st with isPunishmentLocked := false,
                  punishmentRuleArmed :=
                    if wasLocked then false else st.punishmentRuleArmed }

/-- `checkPunishmentStatus()`: on an OK response persist the record and
transition to its `is_locked`; a non-OK response does nothing; a thrown
fetch falls back to the cached record. -/
def checkPunishmentStatusStep (st : ExtState) (pp : PunishmentPoll) : ExtState :=
  match pp with
  | .ok r =>
      let st := { st with storedPunishment := some r }
      let wasLocked := st.isPunishmentLocked
      if r.is_locked then
        { st with isPunishmentLocked := true,
                  punishmentRuleArmed :=
                    if wasLocked then st.punishmentRuleArmed else true }
      else
        { st with isPunishmentLocked := false,
                  punishmentRuleArmed :=
                    if wasLocked then false else st.punishmentRuleArmed }
  | .httpError => st
  | .exn => checkCachedPunishmentStatus st

/-- `syncAICache()`: replace `aiCheckedDomains` only on an OK response
carrying the array. -/
def syncAICacheStep (st : ExtState) (cp : CachePoll) : ExtState :=
  match cp with
  | none => st
  | some checked => { st with aiCheckedDomains := checked }

/-- One `syncWithApp()` cycle.  On an OK `/status` response: set
`appConnected`, adopt the remote `isBlocking`, on the Off→On transition
first run `fetchBlockedSites` then arm the session rule, on On→Off
disarm it; then run the punishment and AI-cache polls.  On a non-OK
response: clear `appConnected` only, then still run the other two
polls.  On a thrown fetch (or malformed JSON): clear `appConnected`,
force `isBlocking` off and disarm the session rule if it was on, and
fall back to the cached punishment record (the punishment and cache
polls are skipped by the exception). -/
def syncWithApp (st : ExtState) (sp : StatusPoll) (sitesFetch : Option SitesPayload)
    (pp : PunishmentPoll) (cp : CachePoll) : ExtState :=
  match sp with
  | .ok b =>
      let st := { st with appConnected := true }
      let was := st.isBlocking
      let st := { st with isBlocking := b }
      let st :=
        if b && !was then
          let st := fetchBlockedSitesStep st sitesFetch
          { st with sessionRuleArmed := true }
        else if !b && was then { st with sessionRuleArmed := false }
        else st
      syncAICacheStep (checkPunishmentStatusStep st pp) cp
  | .httpError =>
      let st := { st with appConnected := false }
      syncAICacheStep (checkPunishmentStatusStep st pp) cp
  | .exn =>
      let st := { st with appConnected := false }
      let st :=
        if st.isBlocking then
          { st with isBlocking := false, sessionRuleArmed := false }
        else st
      checkCachedPunishmentStatus st

/-! ## ContentClassificationPipeline -/

/-- `shouldCheckDomain(domain)`. -/
def shouldCheckDomain (st : ExtState) (domain : String) : Bool :=
  if domain == "" then false
  else if st.aiCheckedDomains.contains domain then false
  else if st.aiCheckInProgress.contains domain then false
  else if domain == "127.0.0.1" || domain == "localhost" then false
  else if jsEndsWith domain ".local" then false
  else if matcherTest (buildPatternForSites st.alwaysBlockedSites)
            ("https://" ++ domain) then false
  else if matcherTest (buildPatternForSites st.blockedSites)
            ("https://" ++ domain) then false
  else true

/-- Outcome of the `POST /check-content` call: an OK response with its
`is_nsfw`/`method` fields, a non-OK response, or a thrown
fetch/JSON-parse error (caught by the `catch`). -/
inductive ContentCheck where
  | ok (is_nsfw : Bool) (method : String)
  | httpError
  | exn
deriving Repr, DecidableEq

/-- Externally visible effects of one `checkPageContent` run:
whether the tab was redirected to `blocked.html?...&adult=1&ai=1`, and
whether `reportAdultStrike()` was fired. -/
structure ClassifyEffects where
  redirected : Bool
  strike : Bool
deriving Repr, DecidableEq

/-- The opening of `checkPageContent`: when `appConnected` is false, an
on-demand `/ping` probe may set it true (`pingOk` is the probe's
outcome; false covers both a non-OK response and a thrown fetch). -/
def pingAdjust (st : ExtState) (pingOk : Bool) : ExtState :=
  if !st.appConnected && pingOk then { st with appConnected := true } else st

/-- `aiCheckInProgress.add(domain)` (entering the `try` block). -/
def markInProgress (st : ExtState) (domain : String) : ExtState :=
  { st with aiCheckInProgress := st.aiCheckInProgress ++ [domain] }

/-- `aiCheckInProgress.delete(domain)` (the `finally` clause). -/
def clearInProgress (st : ExtState) (domain : String) : ExtState :=
  { st with aiCheckInProgress := st.aiCheckInProgress.erase domain }

/-- Cache the domain as AI-checked unless the response method is
`disabled` or `no_api_key` (those are not cached so they are retried
once an API key is configured). -/
def cacheChecked (st : ExtState) (domain method : String) : ExtState :=
  if method != "disabled" && method != "no_api_key" then
    { st with aiCheckedDomains := setAdd st.aiCheckedDomains domain }
  else st

/-- `if (!alwaysBlockedSites.includes(domain)) alwaysBlockedSites.push(domain)`:
the escalation of a confirmed-NSFW domain into the permanent list. -/
def escalateNsfw (st : ExtState) (domain : String) : ExtState :=
  if st.alwaysBlockedSites.contains domain then st
  else { st with alwaysBlockedSites := st.alwaysBlockedSites ++ [domain] }

/-- The body of `checkPageContent`'s `try` block after the
`/check-content` call resolves: on an OK response cache the domain
(modulo `cacheChecked`'s exception) and on `is_nsfw` escalate, redirect
the tab with the `&ai=1` marker, and fire a strike.  A non-OK response
or a thrown error does nothing (the `catch` only logs). -/
def classifyApply (st : ExtState) (domain : String) (outcome : ContentCheck) :
    ExtState × ClassifyEffects :=
  match outcome with
  | .ok nsfw method =>
      if nsfw then (escalateNsfw (cacheChecked st domain method) domain, ⟨true, true⟩)
      else (cacheChecked st domain method, ⟨false, false⟩)
  | .httpError => (st, ⟨false, false⟩)
  | .exn => (st, ⟨false, false⟩)

/-- `checkPageContent(tabId, url, domain)`: ping-adjust connectivity,
bail out if still disconnected or `shouldCheckDomain` rejects, else
mark in-progress, apply the response, and always clear the marker in
the `finally` step.  Page-signal extraction never throws (it catches
internally) and does not affect the modelled state, so it is omitted. -/
def checkPageContent (st : ExtState) (pingOk : Bool) (domain : String)
    (outcome : ContentCheck) : ExtState × ClassifyEffects :=
  if !(pingAdjust st pingOk).appConnected then (pingAdjust st pingOk, ⟨false, false⟩)
  else if !shouldCheckDomain (pingAdjust st pingOk) domain then
    (pingAdjust st pingOk, ⟨false, false⟩)
  else
    (clearInProgress
       (classifyApply (markInProgress (pingAdjust st pingOk) domain) domain outcome).1 domain,
     (classifyApply (markInProgress (pingAdjust st pingOk) domain) domain outcome).2)

/-! ## UsageTracker delivery (`reportWebsiteUsage`, `flushUsageQueue`) -/

/-- Outcome of one `POST /usage/website` delivery attempt. -/
inductive DeliveryResult where
  | ok
  | httpError
  | netError
deriving Repr, DecidableEq

/-- The drain loop of `flushUsageQueue` over the snapshot, with
`attempt i` the outcome of the `i`-th delivery in this pass: an OK
delivery moves on; a non-OK response re-queues the report and moves on;
a thrown fetch re-queues the report and `break`s, abandoning the rest
of the snapshot.  Returns the queue contents rebuilt by the pass. -/
def flushDrain (attempt : Nat → DeliveryResult) : Nat → List UsageReport → List UsageReport
  | _, [] => []
  | i, r :: rest =>
      match attempt i with
      | .ok => flushDrain attempt (i + 1) rest
      | .httpError => r :: flushDrain attempt (i + 1) rest
      | .netError => [r]

/-- `flushUsageQueue()`: snapshot the queue, clear it, and drain the
snapshot. -/
def flushUsageQueue (queue : List UsageReport) (attempt : Nat → DeliveryResult) :
    List UsageReport :=
  flushDrain attempt 0 queue

/-- `reportWebsiteUsage(domain, seconds)`: no-op for an empty domain or
non-positive seconds; on an OK delivery opportunistically flush the
queue; on any failure append the report to the queue. -/
def reportWebsiteUsage (queue : List UsageReport) (domain : String) (seconds : Int)
    (result : DeliveryResult) (attempt : Nat → DeliveryResult) : List UsageReport :=
  if domain == "" || seconds ≤ 0 then queue
  else
    match result with
    | .ok => flushUsageQueue queue attempt
    | .httpError => queue ++ [⟨domain, seconds⟩]
    | .netError => queue ++ [⟨domain, seconds⟩]

/-! ## Spec-side definitions and concrete states used in the theorems -/

/-- Modelled from the claim's words (C2): the host component of an
http(s) URL — the text after the scheme, up to the first `/`, `:`, `?`
or `#`.  Used only to compare the code's behaviour against the claim;
the code itself never extracts a host. -/
def claimHost (url : String) : String :=
  ⟨(stripScheme url).data.takeWhile fun c =>
    !(c == '/' || c == ':' || c == '?' || c == '#')⟩

/-- Modelled from the claim's words (C2): the set of URLs the claim
says the punishment filter allows — the extension's own pages, and URLs
whose *host equals* `127.0.0.1` or `localhost`. -/
def claimedPunishmentAllow (extensionBase url : String) : Bool :=
  jsStartsWith url extensionBase ||
  claimHost url == "127.0.0.1" || claimHost url == "localhost"

/-- The initial state of the background script's globals (before
`initialize` loads storage). -/
def baseState : ExtState where
  isBlocking := false
  blockedSites := []
  alwaysBlockedSites := []
  whitelistedUrls := []
  blockCount := 0
  appConnected := false
  isPunishmentLocked := false
  sessionRuleArmed := false
  punishmentRuleArmed := false
  aiCheckedDomains := []
  aiCheckInProgress := []
  usageReportQueue := []
  storedPunishment := none

/-- A state actively session-blocking under app control (used as a
concrete instance in the `/status`-failure theorems). -/
def activeBlockingState : ExtState :=
  { baseState with
      isBlocking := true, sessionRuleArmed := true, appConnected := true,
      blockedSites := ["youtube.com"] }

/-- A connected, idle state with an empty classification cache (used as
a concrete instance in the classification theorems). -/
def connectedState : ExtState := { baseState with appConnected := true }

/-! ## Helper lemmas -/

theorem hasPref_append (p s t : List Char) :
    hasPref (p ++ s) (p ++ t) = hasPref s t := by
  induction p with
  | nil => rfl
  | cons a as ih => simp [hasPref, ih]

theorem hasPref_self (l r : List Char) : hasPref l (l ++ r) = true := by
  induction l with
  | nil => rfl
  | cons a as ih => simp [hasPref, ih]

theorem jsToLower_append (a b : String) :
    jsToLower (a ++ b) = jsToLower a ++ jsToLower b := by
  apply String.ext
  simp [jsToLower, String.data_append]

theorem jsStartsWith_append_both (p a b : String) :
    jsStartsWith (p ++ a) (p ++ b) = jsStartsWith a b := by
  simp [jsStartsWith, String.data_append, hasPref_append]

theorem jsStartsWith_self_append (a b : String) :
    jsStartsWith (a ++ b) a = true := by
  simp [jsStartsWith, String.data_append, hasPref_self]

/-- For a literal alternative `d` of the compiled pattern, any URL of
the shape `scheme ++ d ++ rest` matches, for `scheme` one of the four
scheme/`www.` combinations the regex accepts (stated for the two used
below). -/
theorem patternTest_of_mem (alts : List String) (d rest : String) (hd : d ∈ alts) :
    patternTest alts ("https://" ++ d ++ rest) = true ∧
    patternTest alts ("http://www." ++ d ++ rest) = true := by
  have key : ∀ pre : String, jsToLower pre = pre →
      jsStartsWith (jsToLower (pre ++ d ++ rest)) (pre ++ jsToLower d) = true := by
    intro pre hpre
    rw [String.append_assoc, jsToLower_append, hpre, jsStartsWith_append_both,
        jsToLower_append, jsStartsWith_self_append]
  constructor
  · unfold patternTest
    rw [List.any_eq_true]
    refine ⟨d, hd, ?_⟩
    have h := key "https://" (by decide)
    simp only [Bool.or_eq_true]
    tauto
  · unfold patternTest
    rw [List.any_eq_true]
    refine ⟨d, hd, ?_⟩
    have h := key "http://www." (by decide)
    simp only [Bool.or_eq_true]
    tauto

/-! ## Claims -/

/-- C1 (counterexample): the claim says a URL whose host is a subdomain
of a configured domain matches (`sub.example.com` against a rule for
`example.com`), but the compiled regex `^https?://(www\.)?example\.com`
anchors the domain token immediately after the scheme and an optional
`www.`, so `https://sub.example.com/` does not match. -/
theorem claim_C1_counterexample :
    matcherTest (buildPatternForSites ["example.com"]) "https://sub.example.com/" = false := by
  decide

/-- C1 (amended): the compiled matcher accepts exactly the URLs that,
case-insensitively, start with `http://` or `https://`, an optional
`www.`, and then a configured domain D literally: D itself and `www.`D
match with anything following (so `https://example.com.evil.com/` also
matches a rule for `example.com`), while other subdomains such as
`sub.example.com` do not, and hosts merely containing D away from the
scheme boundary (`notexample.com`, `youtube-downloader.com`) do not. -/
theorem claim_C1 :
    (∀ (sites : List String) (D rest : String), D ∈ sites → stripSchemeWww D = D →
      matcherTest (buildPatternForSites sites) ("https://" ++ D ++ rest) = true ∧
      matcherTest (buildPatternForSites sites) ("http://www." ++ D ++ rest) = true) ∧
    matcherTest (buildPatternForSites ["youtube.com"]) "https://www.youtube.com/watch" = true ∧
    matcherTest (buildPatternForSites ["youtube.com"]) "https://youtube-downloader.com" = false ∧
    matcherTest (buildPatternForSites ["example.com"]) "https://notexample.com" = false ∧
    matcherTest (buildPatternForSites ["example.com"]) "https://sub.example.com/" = false ∧
    matcherTest (buildPatternForSites ["example.com"]) "https://example.com.evil.com/" = true := by
  refine ⟨?_, by decide, by decide, by decide, by decide, by decide⟩
  intro sites D rest hmem hD
  have hne : sites.isEmpty = false := by
    cases sites with
    | nil => cases hmem
    | cons a l => rfl
  have hmap : stripSchemeWww D ∈ sites.map stripSchemeWww :=
    List.mem_map_of_mem stripSchemeWww hmem
  rw [hD] at hmap
  have h := patternTest_of_mem (sites.map stripSchemeWww) D rest hmap
  simpa [matcherTest, buildPatternForSites, hne] using h

/-- C1 (witness for the amended theorem): instantiating the general
part at `sites = ["example.com"]`, `D = "example.com"`, `rest = "/x"`. -/
theorem claim_C1_witness :
    matcherTest (buildPatternForSites ["example.com"]) ("https://" ++ "example.com" ++ "/x") = true ∧
    matcherTest (buildPatternForSites ["example.com"]) ("http://www." ++ "example.com" ++ "/x") = true :=
  claim_C1.1 ["example.com"] "example.com" "/x" (by decide) (by decide)

/-- C2 (counterexample): the claim says that under punishment lock a
URL is allowed only if it is an extension page or its *host equals*
`127.0.0.1`/`localhost`; but the filter uses `url.includes(...)`, so
`https://evil.com/127.0.0.1` — whose host is `evil.com` — is allowed. -/
theorem claim_C2_counterexample :
    punishmentBlockRequest "moz-extension://ext-id/" "https://evil.com/127.0.0.1"
      = RequestDecision.allow ∧
    claimedPunishmentAllow "moz-extension://ext-id/" "https://evil.com/127.0.0.1" = false := by
  constructor <;> decide

/-- C2 (amended): when punishment is locked, a navigation is allowed
iff the URL starts with the extension's base URL or *contains* the
substring `127.0.0.1` or `localhost` anywhere; every other URL —
whitelisted or not (the filter never consults the whitelist) — is
redirected to the blocked page with the punishment marker. -/
theorem claim_C2 (extensionBase url : String) (wl : List String) :
    (punishmentBlockRequest extensionBase url = RequestDecision.allow ↔
      (jsStartsWith url extensionBase = true ∨
       jsIncludes url "127.0.0.1" = true ∨ jsIncludes url "localhost" = true)) ∧
    (jsStartsWith url extensionBase = false →
     jsIncludes url "127.0.0.1" = false → jsIncludes url "localhost" = false →
     isWhitelisted wl url = true →
     punishmentBlockRequest extensionBase url
       = RequestDecision.redirectToBlocked url true true false) := by
  unfold punishmentBlockRequest
  constructor
  · split_ifs with h1 h2 <;> simp_all
  · intro h1 h2 h3 _
    simp [h1, h2, h3]

/-- C2 (witness): the amended characterisation evaluated at concrete
inputs — a whitelisted ordinary URL is still blocked, and a URL merely
containing `localhost` is allowed. -/
theorem claim_C2_witness :
    punishmentBlockRequest "moz-extension://ext-id/" "https://example.com/a"
      = RequestDecision.redirectToBlocked "https://example.com/a" true true false ∧
    punishmentBlockRequest "moz-extension://ext-id/" "https://localhost.evil.com/"
      = RequestDecision.allow :=
  ⟨(claim_C2 "moz-extension://ext-id/" "https://example.com/a"
      ["https://example.com/a"]).2 (by decide) (by decide) (by decide) (by decide),
   (claim_C2 "moz-extension://ext-id/" "https://localhost.evil.com/" []).1.mpr
      (Or.inr (Or.inr (by decide)))⟩

/-- The cached-punishment fallback touches only the punishment fields:
`appConnected`, `isBlocking` and the session rule are untouched. -/
theorem checkCachedPunishmentStatus_frame (st : ExtState) :
    (checkCachedPunishmentStatus st).appConnected = st.appConnected ∧
    (checkCachedPunishmentStatus st).isBlocking = st.isBlocking ∧
    (checkCachedPunishmentStatus st).sessionRuleArmed = st.sessionRuleArmed := by
  unfold checkCachedPunishmentStatus
  rcases st.storedPunishment with _ | r
  · exact ⟨rfl, rfl, rfl⟩
  · simp only []
    split <;> simp

/-- The `/punishment-status` step touches only the punishment fields. -/
theorem checkPunishmentStatusStep_frame (st : ExtState) (pp : PunishmentPoll) :
    (checkPunishmentStatusStep st pp).appConnected = st.appConnected ∧
    (checkPunishmentStatusStep st pp).isBlocking = st.isBlocking ∧
    (checkPunishmentStatusStep st pp).sessionRuleArmed = st.sessionRuleArmed := by
  cases pp with
  | ok r => simp only [checkPunishmentStatusStep]; split <;> simp
  | httpError => exact ⟨rfl, rfl, rfl⟩
  | exn => exact checkCachedPunishmentStatus_frame st

/-- The `/nsfw-cache` step touches only `aiCheckedDomains`. -/
theorem syncAICacheStep_frame (st : ExtState) (cp : CachePoll) :
    (syncAICacheStep st cp).appConnected = st.appConnected ∧
    (syncAICacheStep st cp).isBlocking = st.isBlocking ∧
    (syncAICacheStep st cp).sessionRuleArmed = st.sessionRuleArmed := by
  rcases cp with _ | checked
  · exact ⟨rfl, rfl, rfl⟩
  · exact ⟨rfl, rfl, rfl⟩

/-- C3 (counterexample): the claim says a non-OK `/status` response is
treated identically to an unreachable server; but on a non-OK response
the code only clears `appConnected` — with `isBlocking = true` the flag
stays true and the session-block rule stays armed. -/
theorem claim_C3_counterexample :
    (syncWithApp activeBlockingState .httpError none .httpError none).appConnected = false ∧
    (syncWithApp activeBlockingState .httpError none .httpError none).isBlocking = true ∧
    (syncWithApp activeBlockingState .httpError none .httpError none).sessionRuleArmed = true := by
  refine ⟨?_, ?_, ?_⟩ <;> decide

/-- C3 (amended): if the `/status` fetch throws (server unreachable, or
an OK response with a malformed body) while `isBlocking` is true, the
cycle ends with `appConnected = false`, `isBlocking = false` and the
session rule disarmed; a non-OK HTTP response instead only clears
`appConnected`, leaving `isBlocking` and the session rule unchanged. -/
theorem claim_C3 (st : ExtState) (sf : Option SitesPayload)
    (pp : PunishmentPoll) (cp : CachePoll) :
    (st.isBlocking = true →
      (syncWithApp st .exn sf pp cp).appConnected = false ∧
      (syncWithApp st .exn sf pp cp).isBlocking = false ∧
      (syncWithApp st .exn sf pp cp).sessionRuleArmed = false) ∧
    ((syncWithApp st .httpError sf pp cp).appConnected = false ∧
     (syncWithApp st .httpError sf pp cp).isBlocking = st.isBlocking ∧
     (syncWithApp st .httpError sf pp cp).sessionRuleArmed = st.sessionRuleArmed) := by
  constructor
  · intro hb
    unfold syncWithApp
    have h := checkCachedPunishmentStatus_frame
      { st with appConnected := false, isBlocking := false, sessionRuleArmed := false }
    simp only [hb] at *
    simpa using h
  · unfold syncWithApp
    have h1 := checkPunishmentStatusStep_frame { st with appConnected := false } pp
    have h2 := syncAICacheStep_frame (checkPunishmentStatusStep { st with appConnected := false } pp) cp
    simp_all

/-- C3 (witness): the amended theorem at the concrete actively-blocking
state: an unreachable server forces blocking off and disarms, a non-OK
response leaves blocking on. -/
theorem claim_C3_witness :
    ((syncWithApp activeBlockingState .exn none .httpError none).appConnected = false ∧
     (syncWithApp activeBlockingState .exn none .httpError none).isBlocking = false ∧
     (syncWithApp activeBlockingState .exn none .httpError none).sessionRuleArmed = false) ∧
    (syncWithApp activeBlockingState .httpError none .httpError none).isBlocking = true :=
  ⟨(claim_C3 activeBlockingState none .httpError none).1 (by decide),
   (claim_C3 activeBlockingState none .httpError none).2.2.1.trans (by decide)⟩

/-- C4: every URL matched by the always-block (permanentDomains)
matcher is redirected with the adult marker, increments the block
counter and fires a strike report; the filter never consults the
whitelist, so its outcome is independent of the whitelist's contents. -/
theorem claim_C4 :
    (∀ (st : ExtState) (url : String),
      matcherTest (buildPatternForSites st.alwaysBlockedSites) url = true →
      alwaysBlockRequest st url =
        (.redirectToBlocked url true false false, st.blockCount + 1, true)) ∧
    (∀ (st : ExtState) (wl : List String) (url : String),
      alwaysBlockRequest { st with whitelistedUrls := wl } url = alwaysBlockRequest st url) := by
  constructor
  · intro st url h
    unfold alwaysBlockRequest
    unfold matcherTest at h
    rcases hb : buildPatternForSites st.alwaysBlockedSites with _ | alts <;> rw [hb] at h
    · exact absurd h (by simp)
    · simp at h
      simp [h]
  · intro st wl url
    rfl

/-- C4 (witness): a whitelisted URL matching the always-block matcher
is still blocked, struck and counted, for two different whitelists. -/
theorem claim_C4_witness :
    alwaysBlockRequest
        { baseState with alwaysBlockedSites := ["badsite.com"],
                         whitelistedUrls := ["https://badsite.com/ok"] }
        "https://badsite.com/ok"
      = (.redirectToBlocked "https://badsite.com/ok" true false false, 1, true) ∧
    alwaysBlockRequest { baseState with alwaysBlockedSites := ["badsite.com"] }
        "https://badsite.com/ok"
      = (.redirectToBlocked "https://badsite.com/ok" true false false, 1, true) :=
  ⟨claim_C4.1 _ _ (by decide), claim_C4.1 _ _ (by decide)⟩

/-- C5: in the session-block filter the whitelist runs first: any URL
accepted by `isWhitelisted` is allowed with the counter unchanged, for
every state — in particular even when the URL also matches the
session-domains matcher. -/
theorem claim_C5 (st : ExtState) (url : String)
    (h : isWhitelisted st.whitelistedUrls url = true) :
    blockRequest st url = (RequestDecision.allow, st.blockCount) := by
  unfold blockRequest
  simp [h]

/-- C5 (witness): `https://youtube.com/watch?v=abc` is whitelisted by
the entry `youtube.com/watch?v=abc`, matches the session matcher for
`youtube.com`, and is nevertheless allowed without counting. -/
theorem claim_C5_witness :
    isWhitelisted ["youtube.com/watch?v=abc"] "https://youtube.com/watch?v=abc" = true ∧
    matcherTest (buildPatternForSites ["youtube.com"]) "https://youtube.com/watch?v=abc" = true ∧
    blockRequest
        { baseState with blockedSites := ["youtube.com"],
                         whitelistedUrls := ["youtube.com/watch?v=abc"] }
        "https://youtube.com/watch?v=abc"
      = (RequestDecision.allow, 0) :=
  ⟨by decide, by decide, claim_C5 _ _ (by decide)⟩

/-- A domain that passes `shouldCheckDomain` is in neither the checked
cache nor the in-progress set. -/
theorem shouldCheckDomain_true_not_cached {st : ExtState} {d : String}
    (h : shouldCheckDomain st d = true) :
    st.aiCheckedDomains.contains d = false ∧ st.aiCheckInProgress.contains d = false := by
  unfold shouldCheckDomain at h
  split_ifs at h
  simp_all

/-- Appending a fresh marker and erasing it restores the list. -/
theorem erase_append_self (l : List String) (d : String) (h : l.contains d = false) :
    (l ++ [d]).erase d = l := by
  rw [List.erase_append_right _ (by simpa using h), List.erase_cons_head, List.append_nil]

theorem pingAdjust_of_connected (st : ExtState) (pingOk : Bool)
    (h : st.appConnected = true) : pingAdjust st pingOk = st := by
  unfold pingAdjust
  simp [h]

theorem pingAdjust_frame (st : ExtState) (pingOk : Bool) :
    (pingAdjust st pingOk).aiCheckInProgress = st.aiCheckInProgress ∧
    (pingAdjust st pingOk).aiCheckedDomains = st.aiCheckedDomains ∧
    (pingAdjust st pingOk).alwaysBlockedSites = st.alwaysBlockedSites := by
  unfold pingAdjust
  split <;> exact ⟨rfl, rfl, rfl⟩

theorem cacheChecked_frame (st : ExtState) (domain method : String) :
    (cacheChecked st domain method).aiCheckInProgress = st.aiCheckInProgress ∧
    (cacheChecked st domain method).alwaysBlockedSites = st.alwaysBlockedSites := by
  unfold cacheChecked
  split <;> exact ⟨rfl, rfl⟩

theorem escalateNsfw_frame (st : ExtState) (domain : String) :
    (escalateNsfw st domain).aiCheckInProgress = st.aiCheckInProgress ∧
    (escalateNsfw st domain).aiCheckedDomains = st.aiCheckedDomains := by
  unfold escalateNsfw
  split <;> exact ⟨rfl, rfl⟩

/-- The escalated state always contains the escalated domain. -/
theorem escalateNsfw_contains (st : ExtState) (domain : String) :
    (escalateNsfw st domain).alwaysBlockedSites.contains domain = true := by
  unfold escalateNsfw
  split
  · assumption
  · exact List.elem_eq_true_of_mem (by simp)

/-- `classifyApply` on an OK response, by iota-reduction. -/
theorem classifyApply_ok (st : ExtState) (domain : String) (nsfw : Bool) (method : String) :
    classifyApply st domain (.ok nsfw method) =
      if nsfw then (escalateNsfw (cacheChecked st domain method) domain, ⟨true, true⟩)
      else (cacheChecked st domain method, ⟨false, false⟩) := rfl

/-- A `disabled`/`no_api_key` method caches nothing. -/
theorem cacheChecked_of_skip (st : ExtState) (domain method : String)
    (h : method = "disabled" ∨ method = "no_api_key") :
    cacheChecked st domain method = st := by
  unfold cacheChecked
  rcases h with rfl | rfl <;> simp

/-- Any other method adds the domain to the checked cache. -/
theorem cacheChecked_of_real (st : ExtState) (domain method : String)
    (h1 : method ≠ "disabled") (h2 : method ≠ "no_api_key") :
    cacheChecked st domain method
      = { st with aiCheckedDomains := setAdd st.aiCheckedDomains domain } := by
  unfold cacheChecked
  simp [h1, h2]

/-- `classifyApply` never touches the in-progress set. -/
theorem classifyApply_inProgress (st : ExtState) (domain : String) (o : ContentCheck) :
    (classifyApply st domain o).1.aiCheckInProgress = st.aiCheckInProgress := by
  rcases o with ⟨nsfw, method⟩ | _ | _
  · rw [classifyApply_ok]
    split_ifs
    · exact (escalateNsfw_frame _ _).1.trans (cacheChecked_frame _ _ _).1
    · exact (cacheChecked_frame _ _ _).1
  · rfl
  · rfl

/-- When the app is connected and the domain passes `shouldCheckDomain`,
one `checkPageContent` run reduces to: mark in-progress, apply the
response, clear the marker. -/
theorem checkPageContent_run (st : ExtState) (pingOk : Bool) (domain : String)
    (outcome : ContentCheck) (hconn : st.appConnected = true)
    (hcheck : shouldCheckDomain st domain = true) :
    checkPageContent st pingOk domain outcome =
      (clearInProgress (classifyApply (markInProgress st domain) domain outcome).1 domain,
       (classifyApply (markInProgress st domain) domain outcome).2) := by
  unfold checkPageContent
  rw [pingAdjust_of_connected st pingOk hconn]
  simp [hconn, hcheck]

/-- C6: on an OK `/check-content` response, the domain is cached as
checked unless the method is `disabled` or `no_api_key` (those stay
un-cached for retry); and when `is_nsfw` is true the domain ends up in
the persisted always-block list, the tab is redirected with the
classification marker, and a strike report is fired. -/
theorem claim_C6 (st : ExtState) (pingOk : Bool) (domain : String) (nsfw : Bool) (method : String)
    (hconn : st.appConnected = true) (hcheck : shouldCheckDomain st domain = true) :
    ((method = "disabled" ∨ method = "no_api_key") →
      (checkPageContent st pingOk domain (.ok nsfw method)).1.aiCheckedDomains
        = st.aiCheckedDomains) ∧
    (method ≠ "disabled" → method ≠ "no_api_key" →
      (checkPageContent st pingOk domain (.ok nsfw method)).1.aiCheckedDomains
        = st.aiCheckedDomains ++ [domain]) ∧
    (nsfw = true →
      (checkPageContent st pingOk domain (.ok nsfw method)).1.alwaysBlockedSites.contains domain
        = true ∧
      (checkPageContent st pingOk domain (.ok nsfw method)).2.redirected = true ∧
      (checkPageContent st pingOk domain (.ok nsfw method)).2.strike = true) := by
  obtain ⟨hnc, _⟩ := shouldCheckDomain_true_not_cached hcheck
  rw [checkPageContent_run st pingOk domain _ hconn hcheck]
  refine ⟨?_, ?_, ?_⟩
  · intro h
    show (classifyApply _ _ _).1.aiCheckedDomains = _
    rw [classifyApply_ok, cacheChecked_of_skip _ _ _ h]
    split_ifs
    · exact (escalateNsfw_frame _ _).2
    · rfl
  · intro h1 h2
    have hset : setAdd st.aiCheckedDomains domain = st.aiCheckedDomains ++ [domain] := by
      unfold setAdd
      have hmem : domain ∉ st.aiCheckedDomains := by simpa using hnc
      rw [if_neg (by simpa using hmem)]
    show (classifyApply _ _ _).1.aiCheckedDomains = _
    rw [classifyApply_ok, cacheChecked_of_real _ _ _ h1 h2]
    split_ifs
    · exact (escalateNsfw_frame _ _).2.trans hset
    · exact hset
  · rintro rfl
    refine ⟨?_, rfl, rfl⟩
    show (classifyApply _ _ _).1.alwaysBlockedSites.contains domain = true
    rw [classifyApply_ok]
    exact escalateNsfw_contains _ _

/-- C6 (witness): `/check-content` returning
`{is_nsfw: true, method: "heuristic"}` for `x.com` in a connected state
caches the domain, adds it to the always-block list, redirects and
fires a strike. -/
theorem claim_C6_witness :
    (checkPageContent connectedState false "x.com" (.ok true "heuristic")).1.aiCheckedDomains
      = [] ++ ["x.com"] ∧
    (checkPageContent connectedState false "x.com" (.ok true "heuristic")).1.alwaysBlockedSites.contains "x.com" = true ∧
    (checkPageContent connectedState false "x.com" (.ok true "heuristic")).2.redirected = true ∧
    (checkPageContent connectedState false "x.com" (.ok true "heuristic")).2.strike = true :=
  ⟨(claim_C6 connectedState false "x.com" true "heuristic" (by decide) (by decide)).2.1
      (by decide) (by decide),
   (claim_C6 connectedState false "x.com" true "heuristic" (by decide) (by decide)).2.2 rfl⟩

/-- C7: every `checkPageContent` run restores the `inProgress` set —
the marker added on entry is deleted in the `finally` step on every
outcome (OK, non-OK, exception), so the run leaves `aiCheckInProgress`
exactly as it found it; and `shouldCheckDomain` returns false while the
domain is marked in-progress or once it is in the checked cache. -/
theorem claim_C7 (st : ExtState) (pingOk : Bool) (domain : String) (outcome : ContentCheck) :
    (checkPageContent st pingOk domain outcome).1.aiCheckInProgress = st.aiCheckInProgress ∧
    (st.aiCheckInProgress.contains domain = true → shouldCheckDomain st domain = false) ∧
    (st.aiCheckedDomains.contains domain = true → shouldCheckDomain st domain = false) := by
  refine ⟨?_, ?_, ?_⟩
  · unfold checkPageContent
    have e1 := (pingAdjust_frame st pingOk).1
    split_ifs with hc1 hc2
    · exact e1
    · exact e1
    · have hs : shouldCheckDomain (pingAdjust st pingOk) domain = true := by
        simpa using hc2
      obtain ⟨-, hnp⟩ := shouldCheckDomain_true_not_cached hs
      show (clearInProgress _ _).aiCheckInProgress = _
      unfold clearInProgress
      rw [classifyApply_inProgress]
      show ((pingAdjust st pingOk).aiCheckInProgress ++ [domain]).erase domain = _
      rw [erase_append_self _ _ hnp, e1]
  · intro h
    unfold shouldCheckDomain
    split_ifs <;> simp_all
  · intro h
    unfold shouldCheckDomain
    split_ifs <;> simp_all

/-- C7 (witness): an exception-outcome run leaves the in-progress set
unchanged, and `shouldCheckDomain` rejects an in-progress domain and a
cached domain. -/
theorem claim_C7_witness :
    (checkPageContent connectedState true "a.com" .exn).1.aiCheckInProgress
      = connectedState.aiCheckInProgress ∧
    shouldCheckDomain { baseState with aiCheckInProgress := ["busy.com"] } "busy.com" = false ∧
    shouldCheckDomain { baseState with aiCheckedDomains := ["done.com"] } "done.com" = false :=
  ⟨(claim_C7 connectedState true "a.com" .exn).1,
   (claim_C7 { baseState with aiCheckInProgress := ["busy.com"] } false "busy.com" .exn).2.1
     (by decide),
   (claim_C7 { baseState with aiCheckedDomains := ["done.com"] } false "done.com" .exn).2.2
     (by decide)⟩

/-! ## Usage-queue lemmas (C8) -/

/-- A drain pass only re-queues reports from its snapshot, in their
original order. -/
theorem flushDrain_sublist (attempt : Nat → DeliveryResult) (q : List UsageReport) (i : Nat) :
    (flushDrain attempt i q).Sublist q := by
  induction q generalizing i with
  | nil => simp [flushDrain]
  | cons r rest ih =>
      rw [flushDrain]
      rcases attempt i with _ | _ | _
      · exact (ih (i + 1)).cons r
      · exact (ih (i + 1)).cons₂ r
      · exact (List.nil_sublist rest).cons₂ r

/-- If every delivery in the pass fails with a non-OK response, the
whole snapshot is re-queued unchanged. -/
theorem flushDrain_allHttp (attempt : Nat → DeliveryResult)
    (h : ∀ i, attempt i = .httpError) (q : List UsageReport) (i : Nat) :
    flushDrain attempt i q = q := by
  induction q generalizing i with
  | nil => rfl
  | cons r rest ih =>
      rw [flushDrain, h i, ih (i + 1)]

/-- C8 (counterexample): the claim says no report is ever dropped; but
when the first delivery of a drain pass throws (server down), the pass
`break`s after re-queueing only the failing report — the rest of the
snapshot, already removed from the queue, is lost. -/
theorem claim_C8_counterexample :
    flushUsageQueue [⟨"a.com", 5⟩, ⟨"b.com", 7⟩] (fun _ => .netError) = [⟨"a.com", 5⟩] ∧
    (⟨"b.com", 7⟩ : UsageReport)
      ∉ flushUsageQueue [⟨"a.com", 5⟩, ⟨"b.com", 7⟩] (fun _ => .netError) := by
  constructor
  · rfl
  · decide

/-- C8 (amended): a report whose initial delivery fails (network error
or non-OK) is appended to the queue; a drain pass processes its
snapshot in FIFO order and re-queues only failing reports (never
reordering or fabricating: the result is a sublist of the snapshot); a
pass in which every failure is a non-OK response re-queues everything
in original order; but a network error stops the pass and drops the
reports behind it in the snapshot. -/
theorem claim_C8 :
    (∀ (q : List UsageReport) (d : String) (s : Int) (att : Nat → DeliveryResult),
      ¬d = "" → 0 < s →
      reportWebsiteUsage q d s .netError att = q ++ [⟨d, s⟩] ∧
      reportWebsiteUsage q d s .httpError att = q ++ [⟨d, s⟩]) ∧
    (∀ (q : List UsageReport) (att : Nat → DeliveryResult),
      (flushUsageQueue q att).Sublist q) ∧
    (∀ (q : List UsageReport) (att : Nat → DeliveryResult),
      (∀ i, att i = .httpError) → flushUsageQueue q att = q) ∧
    (∀ (r : UsageReport) (rest : List UsageReport) (att : Nat → DeliveryResult),
      att 0 = .netError → flushUsageQueue (r :: rest) att = [r]) := by
  refine ⟨?_, ?_, ?_, ?_⟩
  · intro q d s att hd hs
    unfold reportWebsiteUsage
    rw [if_neg (by simp [hd]; omega)]
    exact ⟨rfl, rfl⟩
  · exact fun q att => flushDrain_sublist att q 0
  · exact fun q att h => flushDrain_allHttp att h q 0
  · intro r rest att h
    unfold flushUsageQueue
    rw [flushDrain, h]

/-- C8 (witness): the amended behaviour at concrete queues — initial
failure queues the report, an all-non-OK pass retries both reports in
order, a network-error pass keeps only the first. -/
theorem claim_C8_witness :
    reportWebsiteUsage [] "a.com" 5 .netError (fun _ => .ok) = [⟨"a.com", 5⟩] ∧
    flushUsageQueue [⟨"a.com", 5⟩, ⟨"b.com", 7⟩] (fun _ => .httpError)
      = [⟨"a.com", 5⟩, ⟨"b.com", 7⟩] ∧
    flushUsageQueue [⟨"c.com", 3⟩, ⟨"d.com", 4⟩] (fun _ => .netError) = [⟨"c.com", 3⟩] :=
  ⟨(claim_C8.1 [] "a.com" 5 (fun _ => .ok) (by decide) (by decide)).1,
   claim_C8.2.2.1 _ _ (fun _ => rfl),
   claim_C8.2.2.2 _ _ _ rfl⟩

/-! ## Monotonicity lemmas (C9) -/

theorem escalateNsfw_superset (st : ExtState) (domain x : String)
    (hx : x ∈ st.alwaysBlockedSites) : x ∈ (escalateNsfw st domain).alwaysBlockedSites := by
  unfold escalateNsfw
  split
  · exact hx
  · exact List.mem_append_left _ hx

theorem classifyApply_superset (st : ExtState) (domain : String) (o : ContentCheck) (x : String)
    (hx : x ∈ st.alwaysBlockedSites) : x ∈ (classifyApply st domain o).1.alwaysBlockedSites := by
  rcases o with ⟨nsfw, method⟩ | _ | _
  · rw [classifyApply_ok]
    split_ifs
    · exact escalateNsfw_superset _ _ _ ((cacheChecked_frame st domain method).2 ▸ hx)
    · exact (cacheChecked_frame st domain method).2 ▸ hx
  · exact hx
  · exact hx

/-- C9 (counterexample): the claim says every runtime modification of
`permanentDomains` preserves existing entries; but a `/sites` refresh
replaces the list wholesale, here dropping `y.com`. -/
theorem claim_C9_counterexample :
    (fetchBlockedSitesStep { baseState with alwaysBlockedSites := ["x.com", "y.com"] }
        (some ⟨[], ["x.com"], none⟩)).alwaysBlockedSites = ["x.com"] ∧
    "y.com" ∈ ({ baseState with alwaysBlockedSites := ["x.com", "y.com"]} :
        ExtState).alwaysBlockedSites ∧
    "y.com" ∉ (fetchBlockedSitesStep { baseState with alwaysBlockedSites := ["x.com", "y.com"] }
        (some ⟨[], ["x.com"], none⟩)).alwaysBlockedSites := by
  refine ⟨rfl, by decide, by decide⟩

/-- C9 (amended): `permanentDomains` grows monotonically under
classification escalation (every domain present before a
`checkPageContent` run is present after it), but the `/sites` refresh
replaces the list wholesale whenever the server supplies a nonempty
`alwaysBlocked` array (preserving the old list only when the array is
empty or missing), so a refresh can remove previously-present domains. -/
theorem claim_C9 :
    (∀ (st : ExtState) (pingOk : Bool) (d : String) (o : ContentCheck) (x : String),
      x ∈ st.alwaysBlockedSites → x ∈ (checkPageContent st pingOk d o).1.alwaysBlockedSites) ∧
    (∀ (st : ExtState) (p : SitesPayload), p.alwaysBlocked = [] →
      (fetchBlockedSitesStep st (some p)).alwaysBlockedSites = st.alwaysBlockedSites) ∧
    (∀ (st : ExtState) (p : SitesPayload), p.alwaysBlocked ≠ [] →
      (fetchBlockedSitesStep st (some p)).alwaysBlockedSites = p.alwaysBlocked) := by
  have hwl : ∀ (st : ExtState) (w : Option (List String)),
      (updateWhitelist st w).alwaysBlockedSites = st.alwaysBlockedSites := by
    intro st w
    cases w <;> rfl
  have hsi : ∀ (st : ExtState) (sites : List String),
      (updateSites st sites).alwaysBlockedSites = st.alwaysBlockedSites := by
    intro st sites
    unfold updateSites
    split <;> rfl
  refine ⟨?_, ?_, ?_⟩
  · intro st pingOk d o x hx
    unfold checkPageContent
    have hping := (pingAdjust_frame st pingOk).2.2
    split_ifs
    · exact hping ▸ hx
    · exact hping ▸ hx
    · show x ∈ (clearInProgress _ _).alwaysBlockedSites
      unfold clearInProgress
      exact classifyApply_superset _ _ _ _ (by exact hping ▸ hx)
  · intro st p hp
    show (updateWhitelist _ _).alwaysBlockedSites = _
    rw [hwl]
    unfold updateAlwaysBlocked
    rw [if_pos (by simp [hp]), hsi]
  · intro st p hp
    show (updateWhitelist _ _).alwaysBlockedSites = _
    rw [hwl]
    unfold updateAlwaysBlocked
    rw [if_neg (by simpa using hp)]

/-- C9 (witness): the amended statement at concrete inputs — an
NSFW-escalating run keeps `old.com` in the list, an empty server list
preserves, a nonempty one replaces. -/
theorem claim_C9_witness :
    "old.com" ∈ (checkPageContent
        { connectedState with alwaysBlockedSites := ["old.com"] }
        false "new.com" (.ok true "heuristic")).1.alwaysBlockedSites ∧
    (fetchBlockedSitesStep { baseState with alwaysBlockedSites := ["x.com"] }
        (some ⟨["s.com"], [], some []⟩)).alwaysBlockedSites = ["x.com"] ∧
    (fetchBlockedSitesStep { baseState with alwaysBlockedSites := ["x.com"] }
        (some ⟨[], ["z.com"], none⟩)).alwaysBlockedSites = ["z.com"] :=
  ⟨claim_C9.1 _ false "new.com" (.ok true "heuristic") "old.com" (by decide),
   claim_C9.2.1 _ ⟨["s.com"], [], some []⟩ rfl,
   claim_C9.2.2 _ ⟨[], ["z.com"], none⟩ (by decide)⟩

/-- C10: with nothing persisted, `initialize` falls back to the fixed
ten-domain default list, and enabling session blocking via the manual
toggle while disconnected arms the session rule over exactly that list
(a request to `https://facebook.com/` is redirected and counted). -/
theorem claim_C10 :
    initBlockedSites none = DEFAULT_BLOCKED_SITES ∧
    DEFAULT_BLOCKED_SITES =
      ["facebook.com", "twitter.com", "x.com", "instagram.com", "tiktok.com",
       "reddit.com", "youtube.com", "twitch.tv", "netflix.com", "discord.com"] ∧
    (manualToggle { baseState with blockedSites := initBlockedSites none }).1.isBlocking
      = true ∧
    (manualToggle { baseState with blockedSites := initBlockedSites none }).1.sessionRuleArmed
      = true ∧
    blockRequest (manualToggle { baseState with blockedSites := initBlockedSites none }).1
        "https://facebook.com/"
      = (.redirectToBlocked "https://facebook.com/" false false false, 1) := by
  refine ⟨rfl, rfl, rfl, rfl, ?_⟩
  decide

end Productivity
